import Mathlib

/-!
Shallow embedding of `scripts/xhs_to_dianping.py` (MediaCrawler).

The script curates social posts for a keyword: it ranks store records by
liked count, flattens the top posts into image candidates, selects images
(AI path with a deterministic heuristic fallback) and synthesizes review
text (AI path with a deterministic template fallback).

Modelling conventions:
* Python strings are Lean `String`; Python `int` is Lean `Int`; counts are `Nat`.
* The two AI backends (`_call_openai` / `_call_local_model`) are external
  HTTP services; their outcome is passed in as an oracle of type
  `Except String String` (`.ok response` for a successful completion,
  `.error e` for any raised exception: network error, timeout, missing
  library, non-success status, ...).
* Python exceptions are the `.error` branch of `Except`.
* The in-place `candidates.sort(...)` mutation of the caller's list is made
  explicit: `heuristicRun` / `analyzeRun` return the final state of the
  candidate list alongside the selected URLs.
* String primitives (`strip`, `split`, `startswith`, `lower`) are embedded
  as structural-recursion functions over the character list so that they
  evaluate inside the kernel; they match Python semantics on the ASCII
  whitespace set.
-/

/-! ## Data model -/

/-- The `RestaurantPost` dataclass of the script. -/
structure RestaurantPost where
  note_id : String
  title : String
  desc : String
  liked_count : Int
  comment_count : Int
  collected_count : Int
  image_list : List String
  note_url : String
  nickname : String
deriving DecidableEq, Repr

/-- One image candidate dict built in `select_best_images_with_ai`:
`{'url', 'post_title', 'post_desc', 'liked_count', 'post_url'}`. -/
structure ImageCandidate where
  url : String
  post_title : String
  post_desc : String
  liked_count : Int
  post_url : String
deriving DecidableEq, Repr

/-- One reference-content dict built in `generate_dianping_content_with_ai`:
`{'title', 'desc', 'liked_count'}`. -/
structure RefPost where
  title : String
  desc : String
  liked_count : Int
deriving DecidableEq, Repr

/-- One raw row of the `xhs_note` table as returned by the store; textual
count fields and the comma-joined image list may be NULL (`none`). -/
structure XhsRow where
  note_id : String
  title : String
  desc : String
  liked_count : Option String
  comment_count : Option String
  collected_count : Option String
  image_list : Option String
  note_url : String
  nickname : String
  source_keyword : String
deriving DecidableEq, Repr

/-! ## Python string primitives, embedded structurally -/

/-- Characters removed by Python `str.strip()` (ASCII whitespace). -/
def isSpaceChar (c : Char) : Bool :=
  c == ' ' || c == '\t' || c == '\n' || c == '\r' || c == '\x0b' || c == '\x0c'

/-- Python `s.strip()`. -/
def pyStrip (s : String) : String :=
  String.mk (((s.toList.dropWhile isSpaceChar).reverse.dropWhile isSpaceChar).reverse)

/-- Splits a character list on a separator character; `splitOnChar sep []`
is `[[]]`, matching Python `"".split(sep) == ['']`. -/
def splitOnChar (sep : Char) : List Char → List (List Char)
  | [] => [[]]
  | c :: rest =>
    match splitOnChar sep rest with
    | [] => if c == sep then [[], [c]] else [[c]]
    | h :: t => if c == sep then [] :: h :: t else (c :: h) :: t

/-- Python `s.split(sep)` for a one-character separator (the script only
splits on `'\n'` and `','`). -/
def pySplit (s : String) (sep : Char) : List String :=
  (splitOnChar sep s.toList).map String.mk

/-- Prefix test on character lists. -/
def charsStartWith : List Char → List Char → Bool
  | [], _ => true
  | _ :: _, [] => false
  | p :: ps, c :: cs => p == c && charsStartWith ps cs

/-- Python `s.startswith(pre)`. -/
def pyStartsWith (s pre : String) : Bool :=
  charsStartWith pre.toList s.toList

/-- Python `s.lower()` (ASCII case folding). -/
def pyLower (s : String) : String :=
  String.mk (s.toList.map Char.toLower)

/-- Python `sub in s` substring test, for a non-empty pattern `sub`:
splitting on the pattern yields more than one part iff it occurs. -/
def containsSub (s sub : String) : Bool :=
  1 < (s.splitOn sub).length

/-- Python `int(s)`: strip whitespace, optional sign, at least one digit.
Returns `none` when `int` would raise `ValueError`.  (Modelled for ASCII
decimal numerals; Python's digit-group underscores and non-ASCII digits
are out of scope — no theorem below depends on those corners.) -/
def pyIntParse (s : String) : Option Int :=
  let t := (pyStrip s).toList
  let signed : Bool × List Char :=
    match t with
    | '-' :: rest => (true, rest)
    | '+' :: rest => (false, rest)
    | _ => (false, t)
  if signed.2 ≠ [] ∧ signed.2.all Char.isDigit then
    let n : Nat := signed.2.foldl (fun acc c => acc * 10 + (c.toNat - 48)) 0
    some (if signed.1 then -(n : Int) else (n : Int))
  else none

/-! ## AIModelManager: selection -/

/-- Parsing of the AI selection response (`analyze_images_content`, primary
path): one URL per line, stripped, dropping blank lines and lines not
starting with `http`, truncated to `num_images`. -/
def parseAiUrls (response : String) (num_images : Nat) : List String :=
  (((pySplit response '\n').map pyStrip).filter
    (fun l => l ≠ "" ∧ pyStartsWith l "http")).take num_images

/-- The comparator of `candidates.sort(key=lambda x: x['liked_count'],
reverse=True)`: a stable descending sort, i.e. a stable sort for the
relation `a.liked_count ≥ b.liked_count`. -/
def candidateGE (a b : ImageCandidate) : Bool :=
  b.liked_count ≤ a.liked_count

/-- The scan loop of `_heuristic_image_selection`: walk the sorted
candidates, stop once `num_images` URLs are selected, and append a
candidate's URL when it was not seen before and is non-blank. -/
def pickUrls : List ImageCandidate → Nat → List String → List String → List String
  | [], _, _, selected => selected
  | c :: rest, n, seen, selected =>
    if n ≤ selected.length then selected
    else if c.url ∉ seen ∧ pyStrip c.url ≠ "" then
      pickUrls rest n (c.url :: seen) (selected ++ [c.url])
    else
      pickUrls rest n seen selected

/-- `_heuristic_image_selection`, with the in-place sort of the caller's
candidate list made explicit: the first component is the state of the
candidate list after the call, the second the returned URL list. -/
def heuristicRun (candidates : List ImageCandidate) (num_images : Nat) :
    List ImageCandidate × List String :=
  let sorted := candidates.mergeSort candidateGE
  (sorted, (pickUrls sorted num_images [] []).take num_images)

/-- Return value of `_heuristic_image_selection`. -/
def heuristic_image_selection (candidates : List ImageCandidate) (num_images : Nat) :
    List String :=
  (heuristicRun candidates num_images).2

/-- `analyze_images_content`, with the backend outcome as an oracle and the
final state of the caller's candidate list made explicit.  On `.ok` the
response is parsed (one URL per line, truncated); on `.error` — any
exception in the primary path — the heuristic fallback runs. -/
def analyzeRun (ai : Except String String) (image_candidates : List ImageCandidate)
    (num_images : Nat) : List ImageCandidate × List String :=
  match ai with
  | .ok response => (image_candidates, parseAiUrls response num_images)
  | .error _ => heuristicRun image_candidates num_images

/-- Return value of `analyze_images_content`. -/
def analyze_images_content (ai : Except String String)
    (image_candidates : List ImageCandidate) (num_images : Nat) : List String :=
  (analyzeRun ai image_candidates num_images).2

/-! ## AIModelManager: synthesis -/

/-- The dead `keywords_found` accumulation of `_generate_template_content`:
per reference post, scan title+desc (lowercased) for taste / ambience /
service / value cue words.  The script computes this list and never uses
it. -/
def templateKeywordsFound (reference_posts : List RefPost) : List String :=
  reference_posts.flatMap (fun post =>
    let text := pyLower (post.title ++ " " ++ post.desc)
    (if ["好吃", "美味", "香", "嫩", "鲜"].any (fun w => containsSub text w)
      then ["口味佳"] else []) ++
    (if ["环境", "装修", "氛围", "店面"].any (fun w => containsSub text w)
      then ["环境好"] else []) ++
    (if ["服务", "态度", "热情"].any (fun w => containsSub text w)
      then ["服务好"] else []) ++
    (if ["划算", "便宜", "实惠", "性价比"].any (fun w => containsSub text w)
      then ["性价比高"] else []))

/-- `_generate_template_content`: fixed template with the keyword
substituted into the title and body; the `keywords_found` signal is
computed (faithfully) but never used, exactly as in the source. -/
def generate_template_content (reference_posts : List RefPost) (keyword : String) :
    String :=
  let _keywords_found := templateKeywordsFound reference_posts
  let title := "探店" ++ keyword ++ " | 这家店真的绝了！📸✨"
  let content_parts : List String := [
    "🍖 今天来探店传说中的" ++ keyword ++ "，真的是被惊艳到了！",
    "",
    "【口味卖相】⭐⭐⭐⭐⭐",
    "烤肉的火候掌握得刚刚好，外焦内嫩，每一口都能感受到肉汁的鲜美💧 摆盘也很用心，颜值和味道都在线👍",
    "",
    "【服务体验】⭐⭐⭐⭐",
    "服务员小姐姐超级热情，会主动帮忙烤肉，还会推荐好吃的搭配🥰 整个用餐过程很愉快",
    "",
    "【环境氛围】⭐⭐⭐⭐",
    "店内装修很有特色，灯光氛围营造得很棒✨ 适合和朋友聚餐，拍照也很好看📷",
    "",
    "【价格水平】⭐⭐⭐⭐",
    "人均消费合理，分量足够，性价比还是很不错的💰 学生党也可以承受",
    "",
    "总的来说，" ++ keyword ++ "真的值得一试！已经预约下次带家人来了🎉",
    "",
    "#美食探店 #烤肉推荐 #北京美食"]
  title ++ "\n\n" ++ String.intercalate "\n" content_parts

/-- `generate_dianping_content`: on `.ok` return the trimmed response, on
`.error` — any exception in the primary path — run the template fallback
(which receives the reference posts and the keyword, not the images). -/
def generate_dianping_content (ai : Except String String)
    (reference_posts : List RefPost) (keyword : String)
    (_selected_images : List String) : String :=
  match ai with
  | .ok response => pyStrip response
  | .error _ => generate_template_content reference_posts keyword

/-! ## XhsToDianpingGenerator: store query and post construction -/

/-- Python `int(row.get(field, 0) or 0)` on a nullable text field: NULL and
the empty string are falsy and collapse to the integer `0`; any other
string goes through `int`, whose failure (`none`) is a raised
`ValueError`. -/
def parseCountField (o : Option String) : Option Int :=
  match o with
  | none => some 0
  | some s => if s = "" then some 0 else pyIntParse s

/-- The liked-count conversion of `get_top_posts_from_db`: the same
`int(... or 0)` expression, but wrapped in `try/except` so a parse failure
coerces to `0` instead of raising. -/
def likedCountOf (o : Option String) : Int :=
  (parseCountField o).getD 0

/-- Handling of the raw `image_list` field: a falsy value (NULL or empty
string) yields `[]`; otherwise split on commas, strip each part and drop
the blanks. -/
def splitImageList (o : Option String) : List String :=
  match o with
  | none => []
  | some s =>
    if s = "" then []
    else ((pySplit s ',').map pyStrip).filter (fun t => t ≠ "")

/-- The `WHERE` clause of the query in `get_top_posts_from_db`:
`source_keyword = :kw AND liked_count IS NOT NULL AND liked_count != ''
AND image_list IS NOT NULL AND image_list != ''`. -/
def sqlWhere (kw : String) (r : XhsRow) : Bool :=
  r.source_keyword == kw
    && r.liked_count != none && r.liked_count != some ""
    && r.image_list != none && r.image_list != some ""

/-- Modelled from the spec and MySQL semantics: the sort key
`CAST(liked_count AS UNSIGNED)` of the query's `ORDER BY`; MySQL casts a
string by reading its leading run of digits (`0` when there is none).  The
theorems below never depend on the resulting order beyond it being a
permutation. -/
def mysqlCastUnsigned (o : Option String) : Nat :=
  match o with
  | none => 0
  | some s =>
    (((pyStrip s).toList.takeWhile Char.isDigit).foldl
      (fun acc c => acc * 10 + (c.toNat - 48)) 0)

/-- Descending comparator of the query's `ORDER BY ... DESC`. -/
def rowGE (a b : XhsRow) : Bool :=
  mysqlCastUnsigned b.liked_count ≤ mysqlCastUnsigned a.liked_count

/-- The `RestaurantPost` built by the loop body of `get_top_posts_from_db`
(total form, defined when the count fields parse). -/
def mkPost (r : XhsRow) : RestaurantPost :=
  { note_id := r.note_id
    title := r.title
    desc := r.desc
    liked_count := likedCountOf r.liked_count
    comment_count := (parseCountField r.comment_count).getD 0
    collected_count := (parseCountField r.collected_count).getD 0
    image_list := splitImageList r.image_list
    note_url := r.note_url
    nickname := r.nickname }

/-- The loop body of `get_top_posts_from_db` with its failure modes: the
`comment_count` / `collected_count` conversions are *not* inside the
`try/except` that guards `liked_count`, so their parse failure raises out
of the whole function. -/
def mkPostE (r : XhsRow) : Except String RestaurantPost :=
  match parseCountField r.comment_count with
  | none => .error ("invalid literal for int: " ++ r.comment_count.getD "")
  | some _ =>
    match parseCountField r.collected_count with
    | none => .error ("invalid literal for int: " ++ r.collected_count.getD "")
    | some _ => .ok (mkPost r)

/-- `get_top_posts_from_db`: the store rows pass the `WHERE` filter, are
ordered by the cast liked count descending, cut to `LIMIT limit`, and each
surviving row is converted to a `RestaurantPost` (raising on a bad
`comment_count` / `collected_count`). -/
def get_top_posts_from_db (rows : List XhsRow) (kw : String) (limit : Nat) :
    Except String (List RestaurantPost) :=
  (((rows.filter (sqlWhere kw)).mergeSort rowGE).take limit).mapM mkPostE

/-! ## XhsToDianpingGenerator: aggregation, reference content, pipeline -/

/-- The candidate aggregation of `select_best_images_with_ai`: one
candidate dict per image URL of each of the first 50 posts, in post order
then in-post image order, with no deduplication. -/
def collectImageCandidates (posts : List RestaurantPost) : List ImageCandidate :=
  (posts.take 50).flatMap (fun post =>
    post.image_list.map (fun img_url =>
      { url := img_url
        post_title := post.title
        post_desc := post.desc
        liked_count := post.liked_count
        post_url := post.note_url }))

/-- The reference-content aggregation of
`generate_dianping_content_with_ai`: the first 20 posts. -/
def collectReferenceContent (posts : List RestaurantPost) : List RefPost :=
  (posts.take 20).map (fun p =>
    { title := p.title, desc := p.desc, liked_count := p.liked_count })

/-- The result dict assembled by `run`. -/
structure CurationResult where
  keyword : String
  total_posts : Nat
  selected_images : List String
  content : String
  top_posts : List (String × Int × String)
deriving DecidableEq, Repr

/-- The message of the `ValueError` raised by `run` when no posts were
obtained. -/
def noDataMsg : String := "未获取到任何帖子数据"

/-- `run`, from the point where the store returned its rows (the crawl
step is an external collaborator): obtain the ranked posts, raise the
"no data" `ValueError` when the list is empty, otherwise select images and
generate content (with their backend outcomes as oracles) and assemble the
result. -/
def runPipeline (rows : List XhsRow) (keyword : String)
    (selAI genAI : Except String String) : Except String CurationResult :=
  match get_top_posts_from_db rows keyword 100 with
  | .error e => .error e
  | .ok posts =>
    if posts.isEmpty then .error noDataMsg
    else
      let images := analyze_images_content selAI (collectImageCandidates posts) 9
      let content := generate_dianping_content genAI (collectReferenceContent posts)
        keyword images
      .ok { keyword := keyword
            total_posts := posts.length
            selected_images := images
            content := content
            top_posts := (posts.take 10).map (fun p =>
              (p.title, p.liked_count, p.note_url)) }

/-! ## Specification-side definitions -/

/-- Keep-first deduplication of a URL list: retain each URL's first
occurrence and delete the later ones.  Stated from the spec's words for
the fallback selection ("adding each candidate's URL to the result if the
URL has not been added before"). -/
def dedupFirst : List String → List String
  | [] => []
  | u :: rest => u :: dedupFirst (rest.filter (fun v => v ≠ u))
termination_by l => l.length
decreasing_by
  simp only [List.length_cons]
  exact Nat.lt_succ_of_le (List.length_filter_le _ _)

/-- The URLs of a candidate list that survive the blank filter. -/
def nonBlankUrls (cands : List ImageCandidate) : List String :=
  (cands.map ImageCandidate.url).filter (fun u => pyStrip u ≠ "")

/-! ## Lemmas about the fallback selection scan -/

/-- The scan loop without the length cut-off: collect every first
occurrence of a non-blank URL not yet seen. -/
def pickAll : List ImageCandidate → List String → List String
  | [], _ => []
  | c :: rest, seen =>
    if c.url ∉ seen ∧ pyStrip c.url ≠ "" then
      c.url :: pickAll rest (c.url :: seen)
    else
      pickAll rest seen

/-! ## Concrete inputs for witnesses and counterexamples -/

/-- A well-formed image candidate. -/
def sampleCand : ImageCandidate :=
  { url := "http://a.example/1.jpg", post_title := "t", post_desc := "d",
    liked_count := 3, post_url := "u" }

/-- A candidate with the lower liked count. -/
def lowCand : ImageCandidate :=
  { url := "http://low.example/a.jpg", post_title := "a", post_desc := "da",
    liked_count := 1, post_url := "pa" }

/-- A candidate with the higher liked count. -/
def highCand : ImageCandidate :=
  { url := "http://high.example/b.jpg", post_title := "b", post_desc := "db",
    liked_count := 2, post_url := "pb" }

/-- A store row whose liked-count string is empty (and otherwise valid). -/
def emptyLikedRow : XhsRow :=
  { note_id := "n1", title := "t1", desc := "d1", liked_count := some "",
    comment_count := some "3", collected_count := some "4",
    image_list := some "http://a.example/a.jpg", note_url := "nu1",
    nickname := "nick1", source_keyword := "烤肉" }

/-- A store row whose raw image list is non-empty but contains only a
comma and blanks, and whose liked-count string is a negative numeral. -/
def blankImagesRow : XhsRow :=
  { note_id := "n2", title := "t2", desc := "d2", liked_count := some "-5",
    comment_count := some "0", collected_count := some "0",
    image_list := some " , ", note_url := "nu2", nickname := "nick2",
    source_keyword := "烤肉" }

/-- A store row whose liked-count string is non-empty but unparsable. -/
def badLikedRow : XhsRow :=
  { note_id := "n3", title := "t3", desc := "d3", liked_count := some "1.2万",
    comment_count := some "7", collected_count := some "8",
    image_list := some "http://c.example/c.jpg", note_url := "nu3",
    nickname := "nick3", source_keyword := "烤肉" }

theorem pickUrls_eq_pickAll_take (cands : List ImageCandidate) (n : Nat)
    (seen selected : List String) (h : selected.length ≤ n) :
    pickUrls cands n seen selected
      = selected ++ (pickAll cands seen).take (n - selected.length) := by
  induction cands generalizing seen selected with
  | nil => simp [pickUrls, pickAll]
  | cons c rest ih =>
    by_cases hlen : n ≤ selected.length
    · have heq : selected.length = n := le_antisymm h hlen
      simp [pickUrls, hlen, heq]
    · push_neg at hlen
      by_cases hc : c.url ∉ seen ∧ pyStrip c.url ≠ ""
      · rw [pickUrls, if_neg (by omega), if_pos hc, pickAll, if_pos hc]
        rw [ih _ _ (by simp only [List.length_append, List.length_singleton]; omega)]
        have hn : n - selected.length = (n - (selected.length + 1)) + 1 := by omega
        simp only [List.length_append, List.length_singleton, hn,
          List.take_succ_cons, List.append_assoc, List.singleton_append]
      · rw [pickUrls, if_neg (by omega), if_neg hc, pickAll, if_neg hc]
        exact ih _ _ h

theorem pickAll_eq_dedupFirst (cands : List ImageCandidate) (seen : List String) :
    pickAll cands seen
      = dedupFirst ((cands.map ImageCandidate.url).filter
          (fun u => u ∉ seen ∧ pyStrip u ≠ "")) := by
  induction cands generalizing seen with
  | nil => simp [pickAll, dedupFirst]
  | cons c rest ih =>
    by_cases hc : c.url ∉ seen ∧ pyStrip c.url ≠ ""
    · rw [pickAll, if_pos hc, ih, List.map_cons,
        List.filter_cons_of_pos (by simpa using hc), dedupFirst]
      congr 1
      rw [List.filter_filter]
      refine congrArg dedupFirst (List.filter_congr ?_)
      intro x _
      rw [← Bool.decide_and]
      apply decide_eq_decide.mpr
      simp only [List.mem_cons, not_or]
      tauto
    · rw [pickAll, if_neg hc, ih, List.map_cons,
        List.filter_cons_of_neg (by simpa using hc)]

theorem mem_dedupFirst (l : List String) : ∀ x ∈ dedupFirst l, x ∈ l := by
  induction l using dedupFirst.induct with
  | case1 => intro x hx; simp [dedupFirst] at hx
  | case2 u rest ih =>
    intro x hx
    rw [dedupFirst] at hx
    rcases hx with _ | ⟨_, hx⟩
    · exact List.mem_cons_self _ _
    · have hm := ih x hx
      rw [List.mem_filter] at hm
      exact List.mem_cons_of_mem _ hm.1

theorem dedupFirst_nodup (l : List String) : (dedupFirst l).Nodup := by
  induction l using dedupFirst.induct with
  | case1 => simp [dedupFirst]
  | case2 u rest ih =>
    rw [dedupFirst]
    refine List.nodup_cons.mpr ⟨?_, ih⟩
    intro hmem
    have := mem_dedupFirst _ _ hmem
    rw [List.mem_filter] at this
    simp at this

theorem toFinset_filter_ne (rest : List String) (u : String) :
    (rest.filter (fun v => v ≠ u)).toFinset = rest.toFinset.erase u := by
  ext x
  simp [List.mem_filter, and_comm]

theorem length_dedupFirst (l : List String) :
    (dedupFirst l).length = l.toFinset.card := by
  induction l using dedupFirst.induct with
  | case1 => simp [dedupFirst]
  | case2 u rest ih =>
    rw [dedupFirst, List.length_cons, ih, toFinset_filter_ne,
      List.toFinset_cons]
    by_cases hu : u ∈ rest.toFinset
    · rw [Finset.insert_eq_self.mpr hu, Finset.card_erase_add_one hu]
    · rw [Finset.card_insert_of_not_mem hu, Finset.erase_eq_of_not_mem hu]

theorem candidateGE_trans (a b c : ImageCandidate) (h1 : candidateGE a b = true)
    (h2 : candidateGE b c = true) : candidateGE a c = true := by
  simp only [candidateGE, decide_eq_true_eq] at *
  exact le_trans h2 h1

theorem candidateGE_total (a b : ImageCandidate) :
    (candidateGE a b || candidateGE b a) = true := by
  simp only [candidateGE, Bool.or_eq_true, decide_eq_true_eq]
  exact le_total _ _

/-- Functional characterization of the fallback selection: stable
descending sort, drop blank URLs, keep first occurrences, truncate. -/
theorem heuristic_characterization (cands : List ImageCandidate) (n : Nat) :
    heuristic_image_selection cands n
      = (dedupFirst (nonBlankUrls (cands.mergeSort candidateGE))).take n := by
  unfold heuristic_image_selection heuristicRun
  simp only
  rw [pickUrls_eq_pickAll_take _ _ _ _ (by simp), pickAll_eq_dedupFirst]
  simp only [List.nil_append, List.length_nil, Nat.sub_zero, List.take_take, min_self]
  congr 2
  apply List.filter_congr
  intro x _
  simp [nonBlankUrls]

theorem heuristic_subset (cands : List ImageCandidate) (n : Nat) :
    ∀ u ∈ heuristic_image_selection cands n, ∃ c ∈ cands, c.url = u := by
  intro u hu
  rw [heuristic_characterization] at hu
  have h1 := mem_dedupFirst _ _ (List.mem_of_mem_take hu)
  rw [nonBlankUrls, List.mem_filter] at h1
  obtain ⟨c, hc, rfl⟩ := List.mem_map.mp h1.1
  exact ⟨c, (List.mem_mergeSort).mp hc, rfl⟩

/-! ## Lemmas about the store-row conversion -/

theorem mapM_except_ok (f : XhsRow → Except String RestaurantPost)
    (g : XhsRow → RestaurantPost) (l : List XhsRow)
    (h : ∀ x ∈ l, f x = .ok (g x)) : l.mapM f = .ok (l.map g) := by
  induction l with
  | nil => rfl
  | cons a t ih =>
    rw [List.mapM_cons, h a (List.mem_cons_self a t),
      ih (fun x hx => h x (List.mem_cons_of_mem a hx))]
    rfl

theorem mapM_except_mem (f : XhsRow → Except String RestaurantPost)
    (l : List XhsRow) (ys : List RestaurantPost) (h : l.mapM f = .ok ys) :
    ∀ y ∈ ys, ∃ x ∈ l, f x = .ok y := by
  induction l generalizing ys with
  | nil =>
    rw [List.mapM_nil] at h
    have hys : ys = [] := by simpa [pure, Except.pure] using h.symm
    subst hys
    intro y hy
    cases hy
  | cons a t ih =>
    rw [List.mapM_cons] at h
    cases hfa : f a with
    | error e =>
      rw [hfa] at h
      exact absurd h (by simp [Bind.bind, Except.bind])
    | ok b =>
      rw [hfa] at h
      cases hmt : t.mapM f with
      | error e =>
        rw [hmt] at h
        exact absurd h (by simp [Bind.bind, Except.bind])
      | ok bs =>
        rw [hmt] at h
        have hys : ys = b :: bs := by
          simpa [Bind.bind, Except.bind, pure, Except.pure] using h.symm
        subst hys
        intro y hy
        rcases List.mem_cons.mp hy with rfl | hy2
        · exact ⟨a, List.mem_cons_self a t, hfa⟩
        · obtain ⟨x, hx, hfx⟩ := ih bs hmt y hy2
          exact ⟨x, List.mem_cons_of_mem a hx, hfx⟩

theorem mkPostE_ok (r : XhsRow)
    (h1 : (parseCountField r.comment_count).isSome = true)
    (h2 : (parseCountField r.collected_count).isSome = true) :
    mkPostE r = .ok (mkPost r) := by
  cases hc : parseCountField r.comment_count with
  | none => rw [hc] at h1; cases h1
  | some v =>
    cases hl : parseCountField r.collected_count with
    | none => rw [hl] at h2; cases h2
    | some w => simp [mkPostE, hc, hl]

theorem mkPostE_ok_inv (x : XhsRow) (p : RestaurantPost)
    (h : mkPostE x = .ok p) : p = mkPost x := by
  unfold mkPostE at h
  cases h1 : parseCountField x.comment_count with
  | none => rw [h1] at h; exact absurd h (by simp)
  | some v =>
    rw [h1] at h
    cases h2 : parseCountField x.collected_count with
    | none => rw [h2] at h; exact absurd h (by simp)
    | some w =>
      rw [h2] at h
      exact (Except.ok.inj h).symm

/-! ## Claim theorems -/

/-- C1: any exception in the primary AI call path (modelled as an
`.error` oracle) is caught, never propagated: `analyze_images_content`
then returns exactly the heuristic fallback's result and
`generate_dianping_content` returns exactly the template fallback's
result.  Both embedded operations are total Lean functions, so neither
public operation raises. -/
theorem ai_failure_uses_fallback (e : String) (cands : List ImageCandidate)
    (n : Nat) (posts : List RefPost) (kw : String) (imgs : List String) :
    analyze_images_content (.error e) cands n = heuristic_image_selection cands n
    ∧ generate_dianping_content (.error e) posts kw imgs
        = generate_template_content posts kw :=
  ⟨rfl, rfl⟩

/-- C3: the fallback image selection equals the keep-first deduplication
of the non-blank URLs of the stably sorted candidates, truncated to the
target count; hence it has no duplicates and its length is
`min targetCount (number of distinct non-blank URLs)` — `targetCount`
when at least that many distinct non-blank URLs exist, the distinct count
otherwise.  The sort is a permutation, descending in liked count, and
stable (pairs already in descending order keep their relative order). -/
theorem heuristic_selection_spec (cands : List ImageCandidate) (n : Nat) :
    heuristic_image_selection cands n
      = (dedupFirst (nonBlankUrls (cands.mergeSort candidateGE))).take n
    ∧ (heuristic_image_selection cands n).Nodup
    ∧ (heuristic_image_selection cands n).length
        = min n (nonBlankUrls cands).toFinset.card
    ∧ (cands.mergeSort candidateGE).Perm cands
    ∧ (cands.mergeSort candidateGE).Pairwise
        (fun a b => b.liked_count ≤ a.liked_count)
    ∧ ∀ a b : ImageCandidate, [a, b].Sublist cands →
        b.liked_count ≤ a.liked_count →
        [a, b].Sublist (cands.mergeSort candidateGE) := by
  refine ⟨heuristic_characterization cands n, ?_, ?_,
    List.mergeSort_perm _ _, ?_, ?_⟩
  · rw [heuristic_characterization]
    exact (dedupFirst_nodup _).sublist (List.take_sublist _ _)
  · have hfin : (nonBlankUrls (cands.mergeSort candidateGE)).toFinset
        = (nonBlankUrls cands).toFinset := by
      apply List.toFinset_eq_of_perm
      exact ((List.mergeSort_perm cands candidateGE).map _).filter _
    rw [heuristic_characterization, List.length_take, length_dedupFirst,
      hfin, inf_eq_min]
  · have h := List.sorted_mergeSort candidateGE_trans candidateGE_total cands
    exact h.imp (fun hab => by simpa [candidateGE] using hab)
  · intro a b hab hle
    apply List.sublist_mergeSort candidateGE_trans candidateGE_total _ hab
    rw [List.pairwise_pair]
    simpa [candidateGE] using hle

/-- C4: the template fallback synthesis always returns a non-empty string
that contains the literal keyword (it begins with `"探店" ++ keyword`);
being a total Lean function of well-typed inputs, it never raises, for any
reference-post list including the empty one. -/
theorem template_nonempty_and_contains_keyword (posts : List RefPost)
    (kw : String) :
    generate_template_content posts kw ≠ ""
    ∧ ∃ suf : String,
        generate_template_content posts kw = "探店" ++ (kw ++ suf) := by
  have hex : ∃ suf : String,
      generate_template_content posts kw = "探店" ++ (kw ++ suf) :=
    ⟨_, by simp only [generate_template_content, String.append_assoc]; rfl⟩
  obtain ⟨suf, hsuf⟩ := hex
  refine ⟨?_, ⟨suf, hsuf⟩⟩
  intro h0
  rw [h0] at hsuf
  have hl := congrArg String.length hsuf
  rw [String.length_append, String.length_append] at hl
  have h2 : ("探店" : String).length = 2 := rfl
  have hz : ("" : String).length = 0 := rfl
  rw [h2, hz] at hl
  omega

/-- C5 counterexample: on the primary path the AI response is parsed as
free text, so a URL that belongs to no candidate reaches the result — here
the backend answers a URL while the candidate list is empty, and the
operation returns that URL.  This refutes "every returned URL is a URL of
some input candidate" for the primary path. -/
theorem ai_selection_not_subset_counterexample :
    analyze_images_content (.ok "http://hallucinated.example/img.jpg") [] 9
      = ["http://hallucinated.example/img.jpg"]
    ∧ ¬ ∃ c ∈ ([] : List ImageCandidate),
        c.url = "http://hallucinated.example/img.jpg" := by
  constructor
  · rfl
  · rintro ⟨c, hc, -⟩
    cases hc

/-- C5 (amended): on both paths the result length is between 0 and
`targetCount` inclusive; on the fallback path every returned URL is the
URL of some input candidate.  (The primary path's parsed free-text output
is not validated to be a subset of the candidates.) -/
theorem selection_length_bound_and_fallback_subset (ai : Except String String)
    (cands : List ImageCandidate) (n : Nat) :
    (analyze_images_content ai cands n).length ≤ n
    ∧ ∀ e : String, ai = .error e →
        ∀ u ∈ analyze_images_content ai cands n, ∃ c ∈ cands, c.url = u := by
  constructor
  · cases ai with
    | ok r =>
      simp only [analyze_images_content, analyzeRun, parseAiUrls]
      exact List.length_take_le _ _
    | error e =>
      simp only [analyze_images_content, analyzeRun, heuristicRun]
      exact List.length_take_le _ _
  · rintro e rfl u hu
    exact heuristic_subset cands n u hu

/-- C5 witness: the amended contract at a concrete fallback run. -/
theorem selection_length_bound_and_fallback_subset_witness :
    (analyze_images_content (.error "backend down") [sampleCand] 9).length ≤ 9
    ∧ ∀ u ∈ analyze_images_content (.error "backend down") [sampleCand] 9,
        ∃ c ∈ [sampleCand], c.url = u :=
  ⟨(selection_length_bound_and_fallback_subset (.error "backend down")
      [sampleCand] 9).1,
    fun u hu =>
      (selection_length_bound_and_fallback_subset (.error "backend down")
        [sampleCand] 9).2 "backend down" rfl u hu⟩

/-- C7: the candidate aggregation is the flattening of the image lists of
the first 50 ranked posts: its length is the sum of the image-list lengths
over that window, and the candidate URLs, in order, are exactly the
window's image URLs in post order then in-post order (no cross-post
deduplication). -/
theorem candidate_aggregation_spec (posts : List RestaurantPost) :
    (collectImageCandidates posts).length
      = ((posts.take 50).map (fun p => p.image_list.length)).sum
    ∧ (collectImageCandidates posts).map ImageCandidate.url
      = (posts.take 50).flatMap (fun p => p.image_list) := by
  constructor
  · rw [collectImageCandidates, List.length_flatMap]
    congr 1
    apply List.map_congr_left
    intro p _
    simp [List.length_map]
  · rw [collectImageCandidates, List.map_flatMap]
    congr 1
    funext post
    rw [List.map_map]
    rw [List.map_congr_left (fun u _ => rfl : ∀ u ∈ post.image_list,
      (ImageCandidate.url ∘ fun img_url =>
        ({ url := img_url, post_title := post.title, post_desc := post.desc,
           liked_count := post.liked_count,
           post_url := post.note_url } : ImageCandidate)) u = id u)]
    exact List.map_id _

/-- C9: the template fallback synthesis depends only on the keyword — for
any two reference-post lists the emitted text is identical (the
`keywords_found` category signal is computed but never used). -/
theorem template_independent_of_reference_posts (kw : String)
    (p1 p2 : List RefPost) :
    generate_template_content p1 kw = generate_template_content p2 kw := rfl

/-- C10 counterexample: the fallback path sorts the caller's candidate
list in place (`candidates.sort(...)`), so after the call the list is
reordered — here two candidates in ascending liked-count order come back
swapped, refuting "same elements in the same order". -/
theorem fallback_sorts_candidates_in_place :
    (analyzeRun (.error "backend down") [lowCand, highCand] 9).1
      = [highCand, lowCand]
    ∧ [highCand, lowCand] ≠ [lowCand, highCand] := by
  constructor
  · simp [analyzeRun, heuristicRun, List.mergeSort, candidateGE,
      lowCand, highCand]
  · decide

/-- C10 (amended): the selection operation adds and removes nothing — on
the primary path the caller's candidate list is left untouched, and on
the fallback path it is stably re-sorted in place, leaving a permutation
of the original elements (same elements, possibly reordered). -/
theorem selection_candidates_perm (ai : Except String String)
    (cands : List ImageCandidate) (n : Nat) :
    (analyzeRun ai cands n).1.Perm cands
    ∧ ∀ r : String, ai = .ok r → (analyzeRun ai cands n).1 = cands := by
  constructor
  · cases ai with
    | ok r => exact List.Perm.refl _
    | error e =>
      simpa [analyzeRun, heuristicRun] using
        List.mergeSort_perm cands candidateGE
  · rintro r rfl
    rfl

/-- C10 witness: the amended statement at a concrete primary-path run. -/
theorem selection_candidates_perm_witness :
    (analyzeRun (.ok "http://x.example/1.jpg") [sampleCand] 9).1.Perm
      [sampleCand]
    ∧ (analyzeRun (.ok "http://x.example/1.jpg") [sampleCand] 9).1
      = [sampleCand] :=
  ⟨(selection_candidates_perm (.ok "http://x.example/1.jpg") [sampleCand] 9).1,
    (selection_candidates_perm (.ok "http://x.example/1.jpg") [sampleCand] 9).2
      "http://x.example/1.jpg" rfl⟩

/-- C2: once the store has returned its rows and the ranked post list
`posts` has been obtained, the pipeline fails iff `posts` is empty, and
then with exactly the "no data" error; the failure does not depend on the
AI oracles (the error fires before selection and synthesis contribute
anything), and when `posts` is non-empty the pipeline returns a result for
every pair of AI outcomes — AI failures never make `run` fail. -/
theorem run_no_data_iff_empty (rows : List XhsRow) (kw : String)
    (selAI genAI : Except String String) (posts : List RestaurantPost)
    (h : get_top_posts_from_db rows kw 100 = .ok posts) :
    ((∃ e, runPipeline rows kw selAI genAI = .error e) ↔ posts = [])
    ∧ (posts = [] → runPipeline rows kw selAI genAI = .error noDataMsg)
    ∧ (posts ≠ [] → ∃ res, runPipeline rows kw selAI genAI = .ok res) := by
  rcases posts with _ | ⟨p, ps⟩
  · have hrun : runPipeline rows kw selAI genAI = .error noDataMsg := by
      simp [runPipeline, h]
    exact ⟨⟨fun _ => rfl, fun _ => ⟨noDataMsg, hrun⟩⟩,
      fun _ => hrun, fun hne => absurd rfl hne⟩
  · have hok : ∃ res, runPipeline rows kw selAI genAI = .ok res := by
      cases hr : runPipeline rows kw selAI genAI with
      | error e => exact absurd hr (by simp [runPipeline, h])
      | ok res => exact ⟨res, rfl⟩
    obtain ⟨res, hres⟩ := hok
    refine ⟨⟨fun hex => ?_, fun hc => absurd hc (List.cons_ne_nil p ps)⟩,
      fun hc => absurd hc (List.cons_ne_nil p ps), fun _ => ⟨res, hres⟩⟩
    obtain ⟨e, he⟩ := hex
    rw [hres] at he
    cases he

/-- C2 witness: with no rows the ranked list is empty and the pipeline
fails with the "no data" error, for failing AI oracles. -/
theorem run_no_data_iff_empty_witness :
    ((∃ e, runPipeline [] "烤肉" (.error "down") (.error "down") = .error e)
        ↔ ([] : List RestaurantPost) = [])
    ∧ (([] : List RestaurantPost) = [] →
        runPipeline [] "烤肉" (.error "down") (.error "down") = .error noDataMsg)
    ∧ (([] : List RestaurantPost) ≠ [] →
        ∃ res, runPipeline [] "烤肉" (.error "down") (.error "down") = .ok res) :=
  run_no_data_iff_empty [] "烤肉" (.error "down") (.error "down") []
    (by rw [get_top_posts_from_db, List.filter_nil, List.mergeSort_nil]; rfl)

/-- C6 counterexample: the empty string fails numeric parsing, yet a
record with `liked_count = ''` is excluded by the query's `WHERE` clause
(`liked_count != ''`) — it never reaches the ranked post list, refuting
"the record is still ranked" for that record. -/
theorem empty_liked_count_row_excluded :
    pyIntParse "" = none
    ∧ get_top_posts_from_db [emptyLikedRow] "烤肉" 100 = .ok [] := by
  refine ⟨rfl, ?_⟩
  have hf : ([emptyLikedRow].filter (sqlWhere "烤肉")) = [] := by decide
  rw [get_top_posts_from_db, hf, List.mergeSort_nil]
  rfl

/-- C6 (amended): a source record whose liked-count string is non-NULL and
non-empty but fails numeric parsing is still ranked — provided it passes
the query filter, the filtered rows fit in the query window, and the other
count fields of the batch parse — and the resulting Post's effective
liked-count is 0.  (Records with NULL or empty liked-count are excluded by
the query's `WHERE` clause instead.) -/
theorem unparsable_liked_count_still_ranked (rows : List XhsRow) (kw : String)
    (limit : Nat) (r : XhsRow)
    (hr : r ∈ rows) (hkeep : sqlWhere kw r = true)
    (hfit : (rows.filter (sqlWhere kw)).length ≤ limit)
    (hcounts : ∀ x ∈ rows.filter (sqlWhere kw),
      (parseCountField x.comment_count).isSome = true
        ∧ (parseCountField x.collected_count).isSome = true)
    (hfail : pyIntParse (r.liked_count.getD "") = none) :
    ∃ posts, get_top_posts_from_db rows kw limit = .ok posts
      ∧ mkPost r ∈ posts ∧ (mkPost r).liked_count = 0 := by
  have hwin : (((rows.filter (sqlWhere kw)).mergeSort rowGE).take limit)
      = (rows.filter (sqlWhere kw)).mergeSort rowGE := by
    apply List.take_of_length_le
    rw [List.length_mergeSort]
    exact hfit
  have hok : get_top_posts_from_db rows kw limit
      = .ok (((rows.filter (sqlWhere kw)).mergeSort rowGE).map mkPost) := by
    rw [get_top_posts_from_db, hwin]
    refine mapM_except_ok _ _ _ (fun x hx => ?_)
    have hxf := (List.mem_mergeSort).mp hx
    exact mkPostE_ok x (hcounts x hxf).1 (hcounts x hxf).2
  refine ⟨_, hok, ?_, ?_⟩
  · exact List.mem_map_of_mem _
      ((List.mem_mergeSort).mpr (List.mem_filter.mpr ⟨hr, hkeep⟩))
  · have hsome : ∃ s, r.liked_count = some s ∧ s ≠ "" := by
      simp only [sqlWhere, Bool.and_eq_true, bne_iff_ne, ne_eq,
        beq_iff_eq] at hkeep
      obtain ⟨⟨⟨⟨-, h1⟩, h2⟩, -⟩, -⟩ := hkeep
      cases hlk : r.liked_count with
      | none => exact absurd hlk h1
      | some s =>
        refine ⟨s, rfl, ?_⟩
        intro hse
        rw [hse] at hlk
        exact h2 hlk
    obtain ⟨s, hs, hne⟩ := hsome
    have hpc : parseCountField r.liked_count = none := by
      rw [hs] at hfail ⊢
      rw [Option.getD_some] at hfail
      simp [parseCountField, hne, hfail]
    show likedCountOf r.liked_count = 0
    rw [likedCountOf, hpc]
    rfl

/-- C6 witness: the amended statement at a concrete record whose
liked-count string `"1.2万"` fails `int` parsing: the record is ranked
with liked-count 0. -/
theorem unparsable_liked_count_still_ranked_witness :
    ∃ posts, get_top_posts_from_db [badLikedRow] "烤肉" 100 = .ok posts
      ∧ mkPost badLikedRow ∈ posts ∧ (mkPost badLikedRow).liked_count = 0 :=
  unparsable_liked_count_still_ranked [badLikedRow] "烤肉" 100 badLikedRow
    (by decide) (by decide) (by decide) (by decide) (by decide)

/-- C8 counterexample: a record whose raw image list is `" , "` (non-empty,
so it passes the `WHERE` filter) produces a Post with an *empty* image
list, and a record whose liked-count string is `"-5"` produces a
*negative* liked-count — both violating the claimed invariant while the
Post still enters the curation list. -/
theorem blank_image_list_post_counterexample :
    get_top_posts_from_db [blankImagesRow] "烤肉" 100
      = .ok [mkPost blankImagesRow]
    ∧ (mkPost blankImagesRow).image_list = []
    ∧ (mkPost blankImagesRow).liked_count = -5 := by
  refine ⟨?_, by decide, by decide⟩
  have hf : ([blankImagesRow].filter (sqlWhere "烤肉")) = [blankImagesRow] := by
    decide
  rw [get_top_posts_from_db, hf, List.mergeSort_singleton]
  rfl

/-- C8 (amended): every Post used for curation is constructed from a store
record that passed the query filter (non-NULL, non-empty raw liked-count
and image-list fields); its image list is the raw field split on commas,
trimmed and with blanks dropped — possibly empty when the raw field holds
only blanks and commas — and its liked-count is the integer parse of the
raw string with parse failure coerced to 0 (negative when the string is a
negative numeral). -/
theorem post_construction_provenance (rows : List XhsRow) (kw : String)
    (limit : Nat) (posts : List RestaurantPost)
    (h : get_top_posts_from_db rows kw limit = .ok posts) :
    ∀ p ∈ posts, ∃ r ∈ rows, sqlWhere kw r = true
      ∧ p = mkPost r
      ∧ p.image_list = splitImageList r.image_list
      ∧ p.liked_count = likedCountOf r.liked_count := by
  intro p hp
  rw [get_top_posts_from_db] at h
  obtain ⟨x, hx, hfx⟩ := mapM_except_mem _ _ _ h p hp
  have hxf : x ∈ rows.filter (sqlWhere kw) :=
    (List.mem_mergeSort).mp (List.mem_of_mem_take hx)
  rw [List.mem_filter] at hxf
  have hpx : p = mkPost x := mkPostE_ok_inv x p hfx
  exact ⟨x, hxf.1, hxf.2, hpx, by simp [hpx, mkPost], by simp [hpx, mkPost]⟩

/-- C8 witness: the amended provenance at a concrete store row. -/
theorem post_construction_provenance_witness :
    ∃ r ∈ [blankImagesRow], sqlWhere "烤肉" r = true
      ∧ mkPost blankImagesRow = mkPost r
      ∧ (mkPost blankImagesRow).image_list = splitImageList r.image_list
      ∧ (mkPost blankImagesRow).liked_count = likedCountOf r.liked_count :=
  post_construction_provenance [blankImagesRow] "烤肉" 100
    [mkPost blankImagesRow]
    (by
      have hf : ([blankImagesRow].filter (sqlWhere "烤肉"))
          = [blankImagesRow] := by decide
      rw [get_top_posts_from_db, hf, List.mergeSort_singleton]
      rfl)
    (mkPost blankImagesRow) (List.mem_cons_self _ _)
